import Mathlib

/-!
Verification of the stock-and-sale consistency engine of the mykashop
repository (Django, `inventory` app) against its natural-language
specification.

The data model and the operations are shallowly embedded from the Python
source (`src/inventory/models.py`, `src/inventory/views.py`):

* Django model instances become Lean structures; decimal currency fields are
  modelled as exact integers (cents), Python ints as `Int`.
* A crucial Python semantics point is preserved: when a class body defines the
  same method twice, the second definition shadows the first.  `Product` has
  two `update_stock` definitions (the effective one mutates `stock_quantity`)
  and `Sale` has two `save` definitions (the effective one only assigns
  receipt numbers; the credit-rule `save` is dead code).
* The persistent store is a `DB` structure; `transaction.atomic()` is
  modelled by returning either the mutated store (commit) or the original
  store (rollback on an uncaught exception).  Returning normally from inside
  an atomic block commits whatever was written.
* `StockLog` and `Product.log_stock_change` are imported and called by
  `views.py` but their definitions are not part of the available source; they
  are modelled from the specification (see their doc comments).
-/

/-- A `Product` row / in-memory instance (models.py lines 42-106).  Money is
in exact integer cents; `stock_quantity` is an `Int` because the in-memory
Python object can transiently hold a negative value. -/
structure Product where
  id : Nat
  businessId : Nat
  name : String
  stock_quantity : Int
  buying_price : Int
  selling_price : Int
  low_stock_threshold : Int
  initial_stock : Int
  current_stock : Int
  last_restocked : Option Nat
  deriving DecidableEq

/-- A ledger entry.  Modelled from the spec: the `StockLog` model is imported
by `views.py` from `inventory.models` but its class definition is missing from
the available source; the spec (§3 LedgerEntry) gives its fields: product
reference, action kind, signed `quantity_change`, `previous_stock`,
`new_stock`, free-text `reference`. -/
structure StockLog where
  productId : Nat
  action : String
  quantity_change : Int
  previous_stock : Int
  new_stock : Int
  reference : String
  deriving DecidableEq

/-- Result of one `Product.update_stock` call: the in-memory object the caller
is left holding, the row written by `self.save()` if it ran, and whether
`ValidationError` was raised. -/
structure UpdateResult where
  inMemory : Product
  persisted : Option Product
  raised : Bool
  deriving DecidableEq

/-- `Product.update_stock` (models.py lines 87-92).  This is the second of the
two `update_stock` definitions in the class body; in Python the second
definition shadows the first (lines 75-80, which worked on `current_stock`),
so this is the method that runs.  It first mutates `stock_quantity` on the
in-memory object, then checks negativity (raising `ValidationError`
"Insufficient stock"), and only calls `self.save()` on success. -/
def update_stock (p : Product) (quantity : Int) : UpdateResult :=
  let p1 := { p with stock_quantity := p.stock_quantity + quantity }
  if p1.stock_quantity < 0 then
    { inMemory := p1, persisted := none, raised := true }
  else
    { inMemory := p1, persisted := some p1, raised := false }

/-- The first, shadowed `update_stock` definition (models.py lines 75-80):
it mutated `current_stock` instead of `stock_quantity`.  Dead code in Python;
embedded only to document what the effective method does not do. -/
def update_stock_shadowed (p : Product) (quantity_change : Int) : UpdateResult :=
  let p1 := { p with current_stock := p.current_stock + quantity_change }
  if p1.current_stock < 0 then
    { inMemory := p1, persisted := none, raised := true }
  else
    { inMemory := p1, persisted := some p1, raised := false }

/-- Error raised by the stock mutator. -/
inductive StockError where
  | insufficientStock
  deriving DecidableEq

/-- Modelled from the spec: `Product.log_stock_change`, the Stock Mutator
called by `views.py` (`create_sale`, `restock_product`) whose definition is
missing from the available source.  Spec §4.1: compute
`new_stock = stock_quantity + delta`; if `new_stock < 0` fail with
`InsufficientStock` and perform no mutation; otherwise persist the updated
product and append a ledger entry capturing `previous_stock`, `new_stock`,
`delta`, `action` and `reference`, both writes in one atomic unit. -/
def log_stock_change (p : Product) (action : String) (delta : Int)
    (reference : String) : Except StockError (Product × StockLog) :=
  let new_stock := p.stock_quantity + delta
  if new_stock < 0 then
    Except.error StockError.insufficientStock
  else
    Except.ok ({ p with stock_quantity := new_stock },
      { productId := p.id, action := action, quantity_change := delta,
        previous_stock := p.stock_quantity, new_stock := new_stock,
        reference := reference })

/-- `Product.save` on first creation (models.py lines 68-73): when the row has
no primary key yet, `initial_stock` and `current_stock` are both set to the
creation-time `stock_quantity`. -/
def productCreateSave (p : Product) : Product :=
  { p with initial_stock := p.stock_quantity, current_stock := p.stock_quantity }

/-- One stock mutation applied to a product after its creation, through any of
the code paths of the repository: a sale line (`create_sale` via
`log_stock_change`), a restock through the view (`restock_product` via
`log_stock_change`), a restock through the model (`Restock.save` via
`update_stock` plus `last_restocked`), or a direct `update_stock` call. -/
inductive StockOp where
  | saleLine (qty : Int) (ref : String)
  | restockView (qty : Int) (ref : String)
  | restockModel (qty : Nat) (now : Nat)
  | direct (delta : Int)
  deriving DecidableEq

/-- The persistent effect of one `StockOp` on a product row: a failed
mutation persists nothing, so the row keeps its old value. -/
def applyStockOp (p : Product) : StockOp → Product
  | StockOp.saleLine qty ref =>
      match log_stock_change p "sale" (-qty) ref with
      | Except.ok (p1, _) => p1
      | Except.error _ => p
  | StockOp.restockView qty ref =>
      match log_stock_change p "restock" qty ref with
      | Except.ok (p1, _) => p1
      | Except.error _ => p
  | StockOp.restockModel q now =>
      match (update_stock p (Int.ofNat q)).persisted with
      | some p1 => { p1 with last_restocked := some now }
      | none => p
  | StockOp.direct d =>
      match (update_stock p d).persisted with
      | some p1 => p1
      | none => p

/-- Split a character list at every occurrence of `c`, keeping empty segments:
the behaviour of Python's `str.split('-')` (and of `String.splitOn "-"`) at
the character level. -/
def splitChar (c : Char) : List Char → List (List Char)
  | [] => [[]]
  | x :: xs =>
      if x = c then [] :: splitChar c xs
      else
        match splitChar c xs with
        | [] => [[x]]
        | y :: ys => (x :: y) :: ys

/-- Decimal value of one character, `none` if it is not an ASCII digit. -/
def digitVal? (c : Char) : Option Nat :=
  if ('0' ≤ c ∧ c ≤ '9') then some (c.toNat - '0'.toNat) else none

/-- Python's `int(s)` on the strings that occur here: `some` of the decimal
value when the list is a non-empty run of digits, `none` (a `ValueError`)
otherwise. -/
def charsToNat? (cs : List Char) : Option Nat :=
  if cs = [] then none
  else cs.foldl
    (fun acc c => acc.bind (fun a => (digitVal? c).map (fun v => a * 10 + v)))
    (some 0)

/-- `int(receipt.split('-')[-1])` from Sale.save (models.py line 164): parse
the trailing dash-separated segment; `none` models the caught `ValueError` /
`IndexError`. -/
def parseTrailing (r : String) : Option Nat :=
  charsToNat? ((splitChar '-' r.data).getLastD [])

/-- The four zero-padded decimal digit characters of `n` (meaningful for
`n ≤ 9999`): what Python's `f"{n:04d}"` prints in that range. -/
def fourChars (n : Nat) : List Char :=
  [Nat.digitChar (n / 1000), Nat.digitChar (n / 100 % 10),
   Nat.digitChar (n / 10 % 10), Nat.digitChar (n % 10)]

/-- Python's `f"{n:04d}"`: the decimal digits of `n` left-padded with zeros to
width 4; numbers of five or more digits print unpadded. -/
def pad4 (n : Nat) : String :=
  if n ≤ 9999 then String.mk (fourChars n) else toString n

/-- The receipt string `f"REC-{date}-{n:04d}"` built by Sale.save
(models.py line 171). -/
def recStr (dateStr : String) (n : Nat) : String :=
  "REC-" ++ dateStr ++ "-" ++ pad4 n

/-- `Sale.objects.filter(...).order_by('-receipt_number').first()`
(models.py lines 157-160): the maximum of the receipt strings under string
comparison, `none` on an empty queryset. -/
def maxReceipt : List String → Option String
  | [] => none
  | r :: rs =>
      match maxReceipt rs with
      | none => some r
      | some m => if m.data < r.data then some r else some m

/-- The receipt-number computation of Sale.save (models.py lines 156-171),
as a function of the already-saved receipt numbers for the same business and
calendar date (for a newly inserted sale this list includes the sale's own
transient blank receipt): take the string-wise greatest receipt, parse its
trailing segment and add one, falling back to 1. -/
def nextReceiptNumber (dateStr : String) (receiptsInFilter : List String) :
    String :=
  let newNum :=
    match maxReceipt receiptsInFilter with
    | none => 1
    | some last =>
        match parseTrailing last with
        | some n => n + 1
        | none => 1
  "REC-" ++ dateStr ++ "-" ++ pad4 newNum

/-- Maximum of a list of naturals, 0 on the empty list. -/
def natMaxList : List Nat → Nat
  | [] => 0
  | k :: ks => max k (natMaxList ks)

/-- The receipt rule as claim C4 states it, for comparison with
`nextReceiptNumber`: the counter is the numerically highest existing suffix
plus one, starting at 1 when no suffix exists or parsing fails. -/
def claimNextReceipt (dateStr : String) (receipts : List String) : String :=
  match receipts.filterMap parseTrailing with
  | [] => "REC-" ++ dateStr ++ "-" ++ pad4 1
  | l => "REC-" ++ dateStr ++ "-" ++ pad4 (natMaxList l + 1)

/-- A `Sale` row (models.py lines 131-176).  `dateStr` is the `%Y%m%d`
rendering of `created_at.date()`. -/
structure Sale where
  id : Nat
  businessId : Nat
  total_amount : Int
  receipt_number : String
  dateStr : String
  is_credit : Bool
  amount_paid : Int
  balance : Int
  deriving DecidableEq

/-- A `SaleItem` row (models.py lines 182-191). -/
structure SaleItem where
  saleId : Nat
  productId : Nat
  quantity : Int
  unit_price : Int
  total_price : Int
  deriving DecidableEq

/-- A `Restock` row (models.py lines 197-210), metadata omitted. -/
structure RestockRow where
  productId : Nat
  quantity : Nat
  restocked_at : Nat
  deriving DecidableEq

/-- The persistent store: the rows of the relevant tables, ledger and sale
tables in creation order. -/
structure DB where
  products : List Product
  sales : List Sale
  saleItems : List SaleItem
  stockLogs : List StockLog
  restocks : List RestockRow
  deriving DecidableEq

/-- `SaleItem.save` (models.py lines 189-191): recompute `total_price` as
`quantity * unit_price` before persisting. -/
def saleItemSave (it : SaleItem) : SaleItem :=
  { it with total_price := it.quantity * it.unit_price }

/-- The first `Sale.save` definition (models.py lines 143-151): the credit
rule.  In Python it is shadowed by the second `save` definition below, so this
code never runs; embedded to document the divergence for claim C5. -/
def saleSaveCredit (s : Sale) : Sale :=
  if s.is_credit then { s with balance := s.total_amount - s.amount_paid }
  else { s with amount_paid := s.total_amount, balance := 0 }

/-- The second, effective `Sale.save` definition (models.py lines 152-173):
if the receipt number is blank, a brand-new row is first inserted blank, then
the receipt is computed from the existing sales of the same business and date
(a queryset that therefore includes the sale's own blank transient row, the
`[""]` below) and the row is updated.  A sale that already has a receipt
number is saved unchanged; in particular no credit-rule processing happens on
any path. -/
def saleSave (s : Sale) (receiptsSameBizDate : List String) (isNew : Bool) :
    Sale :=
  if s.receipt_number = "" then
    let queryset := (if isNew then [""] else []) ++ receiptsSameBizDate
    { s with receipt_number := nextReceiptNumber s.dateStr queryset }
  else s

/-- Next autoincrement primary key for the sale table. -/
def freshSaleId (db : DB) : Nat :=
  (db.sales.map (fun s => s.id)).foldr (fun a b => max a b) 0 + 1

/-- `get_object_or_404(Product, id=product_id, business=business)`. -/
def getProduct (db : DB) (pid : Nat) (biz : Nat) : Option Product :=
  db.products.find? (fun p => p.id == pid && p.businessId == biz)

/-- Persist an updated product row (`product.save()` on an existing row). -/
def putProduct (db : DB) (p : Product) : DB :=
  { db with products := db.products.map (fun q => if q.id == p.id then p else q) }

/-- `sale.delete()` (views.py line 69): removes the Sale row; its SaleItem
rows cascade (`on_delete=CASCADE`); StockLog rows reference the product, not
the sale, and stay. -/
def deleteSale (db : DB) (sid : Nat) : DB :=
  { db with
    sales := db.sales.filter (fun s => s.id != sid),
    saleItems := db.saleItems.filter (fun it => it.saleId != sid) }

/-- Outcome of a `create_sale` POST. -/
inductive CreateSaleResult where
  /-- The success JsonResponse, carrying the new sale's id. -/
  | success (saleId : Nat)
  /-- The `{'success': False, 'error': f"Insufficient stock for {name}"}`
  JsonResponse (status 400). -/
  | insufficientStock (productName : String)
  /-- `Http404` from `get_object_or_404`, which propagates out of
  `transaction.atomic()` and rolls the whole transaction back. -/
  | notFound
  deriving DecidableEq

/-- One posted sale line: `none` models a blank `product` or `quantity`
field (`if not product_id or not quantity: continue`). -/
structure SaleLine where
  product_id : Option Nat
  quantity : Option Int
  deriving DecidableEq

/-- The per-line loop of `create_sale` (views.py lines 49-91), carrying the
original store `db0` for rollback, the current store `db` and the running
`total_amount`.  On `ValidationError` from the stock mutator the view calls
`sale.delete()` and then returns normally from inside `transaction.atomic()`,
which commits everything else written so far; on `Http404` the exception
propagates and the whole transaction rolls back to `db0`. -/
def saleLoop (db0 : DB) (biz : Nat) (sale : Sale) :
    List SaleLine → DB → Int → DB × CreateSaleResult
  | [], db, total =>
      let s2 := saleSave { sale with total_amount := total } [] false
      ({ db with
          sales := db.sales.map (fun t => if t.id == sale.id then s2 else t) },
       CreateSaleResult.success sale.id)
  | line :: rest, db, total =>
      match line.product_id, line.quantity with
      | none, _ => saleLoop db0 biz sale rest db total
      | some _, none => saleLoop db0 biz sale rest db total
      | some pid, some qty =>
          match getProduct db pid biz with
          | none => (db0, CreateSaleResult.notFound)
          | some product =>
              if qty ≤ 0 then saleLoop db0 biz sale rest db total
              else
                match log_stock_change product "sale" (-qty)
                    sale.receipt_number with
                | Except.error _ =>
                    (deleteSale db sale.id,
                     CreateSaleResult.insufficientStock product.name)
                | Except.ok (p1, log) =>
                    let db1 := { putProduct db p1 with
                                 stockLogs := db.stockLogs ++ [log] }
                    let item := saleItemSave
                      { saleId := sale.id, productId := pid, quantity := qty,
                        unit_price := product.selling_price, total_price := 0 }
                    saleLoop db0 biz sale rest
                      { db1 with saleItems := db1.saleItems ++ [item] }
                      (total + item.total_price)

/-- `create_sale` (views.py lines 34-94), POST branch: inside one
`transaction.atomic()`, insert a fresh Sale (its `save` assigns the receipt
number from the same-business same-date sales, including its own transient
blank row), then process the posted lines. -/
def create_sale (db0 : DB) (biz : Nat) (dateStr : String)
    (lines : List SaleLine) : DB × CreateSaleResult :=
  let receipts :=
    (db0.sales.filter
      (fun s => s.businessId == biz && s.dateStr == dateStr)).map
      (fun s => s.receipt_number)
  let sale0 : Sale :=
    { id := freshSaleId db0, businessId := biz, total_amount := 0,
      receipt_number := "", dateStr := dateStr, is_credit := false,
      amount_paid := 0, balance := 0 }
  let sale := saleSave sale0 receipts true
  saleLoop db0 biz sale lines { db0 with sales := db0.sales ++ [sale] } 0

/-- Outcome of a `restock_product` POST. -/
inductive RestockResult where
  /-- `messages.success` then redirect. -/
  | success
  /-- `ValidationError` caught, `messages.error`; nothing persisted. -/
  | insufficientMsg
  /-- `Http404` from `get_object_or_404`. -/
  | notFound
  deriving DecidableEq

/-- `restock_product` (views.py lines 163-198), POST branch: look up the
product, optionally overwrite its prices in memory, then call
`log_stock_change(action='restock', quantity_change=quantity, ...)`.  There
is no check that `quantity` is positive: `quantity = int(request.POST.get('quantity'))`
is passed to the mutator as-is.  `ref` stands for the
`f"RESTOCK-{timestamp}"` reference string. -/
def restock_product (db : DB) (biz : Nat) (pid : Nat) (quantity : Int)
    (buying selling : Option Int) (ref : String) : DB × RestockResult :=
  match getProduct db pid biz with
  | none => (db, RestockResult.notFound)
  | some product0 =>
      let product1 :=
        match buying with
        | some b => { product0 with buying_price := b }
        | none => product0
      let product :=
        match selling with
        | some sp => { product1 with selling_price := sp }
        | none => product1
      match log_stock_change product "restock" quantity ref with
      | Except.error _ => (db, RestockResult.insufficientMsg)
      | Except.ok (p1, log) =>
          ({ putProduct db p1 with stockLogs := db.stockLogs ++ [log] },
           RestockResult.success)

/-- `Restock.save` (models.py lines 205-210): update the product's stock via
`update_stock` (the effective definition), stamp `last_restocked`, save the
product again, then insert the Restock row.  No StockLog row is written on
this path.  A `ValidationError` from `update_stock` would propagate and
persist nothing (unreachable for `quantity ≥ 0` on a non-negative row). -/
def restockModelSave (db : DB) (pid : Nat) (quantity : Nat) (now : Nat) : DB :=
  match db.products.find? (fun p => p.id == pid) with
  | none => db
  | some p =>
      match (update_stock p (Int.ofNat quantity)).persisted with
      | none => db
      | some p1 =>
          let p2 := { p1 with last_restocked := some now }
          { putProduct db p2 with
            restocks := db.restocks ++
              [{ productId := pid, quantity := quantity, restocked_at := now }] }

/-- The ledger replay of spec §3 / §8.4: a product's `initial_stock` plus the
sum of `quantity_change` over its StockLog rows in creation order. -/
def ledgerReplay (db : DB) (pid : Nat) : Int :=
  match db.products.find? (fun p => p.id == pid) with
  | none => 0
  | some p =>
      p.initial_stock +
        (((db.stockLogs.filter (fun l => l.productId == pid)).map
          (fun l => l.quantity_change)).foldr (fun a b => a + b) 0)

/-- The global uniqueness constraint on `receipt_number` (models.py line 136:
`receipt_number = models.CharField(max_length=20, unique=True, blank=True)`):
inserting a Sale row whose receipt number some existing row of any business
already holds raises `IntegrityError` (modelled as `Except.error`). -/
def insertSaleUnique (db : DB) (s : Sale) : Except Unit DB :=
  if db.sales.any (fun t => t.receipt_number == s.receipt_number) then
    Except.error ()
  else Except.ok { db with sales := db.sales ++ [s] }

/-- `Sale(business=business, ...).save()` for a sale with no lines attached
yet, with the database-level uniqueness constraint of `receipt_number`
enforced on the resulting row: the receipt is computed per business and date
exactly as in `create_sale`, then the row is inserted subject to the global
constraint. -/
def createEmptySaleUnique (db : DB) (biz : Nat) (dateStr : String) :
    Except Unit (DB × String) :=
  let receipts :=
    (db.sales.filter
      (fun s => s.businessId == biz && s.dateStr == dateStr)).map
      (fun s => s.receipt_number)
  let sale0 : Sale :=
    { id := freshSaleId db, businessId := biz, total_amount := 0,
      receipt_number := "", dateStr := dateStr, is_credit := false,
      amount_paid := 0, balance := 0 }
  let s := saleSave sale0 receipts true
  (insertSaleUnique db s).map (fun db1 => (db1, s.receipt_number))

/-- Sum of `total_price` over the SaleItem rows of one sale. -/
def itemsTotal (db : DB) (sid : Nat) : Int :=
  ((db.saleItems.filter (fun it => it.saleId == sid)).map
    (fun it => it.total_price)).sum

/-- Every SaleItem row of the sale satisfies
`total_price = quantity * unit_price`. -/
def itemsPriced (db : DB) (sid : Nat) : Prop :=
  ∀ it ∈ db.saleItems, it.saleId = sid →
    it.total_price = it.quantity * it.unit_price

/-- The persisted `total_amount` of the sale with the given id. -/
def saleTotalOf (db : DB) (sid : Nat) : Option Int :=
  (db.sales.find? (fun s => s.id == sid)).map (fun s => s.total_amount)

/-- Concrete product used as counterexample input for claim C2. -/
def prodC2 : Product :=
  { id := 1, businessId := 1, name := "soap", stock_quantity := 3,
    buying_price := 100, selling_price := 150, low_stock_threshold := 5,
    initial_stock := 3, current_stock := 3, last_restocked := none }

/-- Concrete products for the two-line sale of claim C1: product A has stock
10, product B only 3. -/
def prodA : Product :=
  { id := 1, businessId := 1, name := "A", stock_quantity := 10,
    buying_price := 100, selling_price := 200, low_stock_threshold := 0,
    initial_stock := 10, current_stock := 10, last_restocked := none }

/-- Second product for claim C1, stock 3. -/
def prodB : Product :=
  { id := 2, businessId := 1, name := "B", stock_quantity := 3,
    buying_price := 150, selling_price := 350, low_stock_threshold := 0,
    initial_stock := 3, current_stock := 3, last_restocked := none }

/-- Store for claim C1. -/
def dbC1 : DB :=
  { products := [prodA, prodB], sales := [], saleItems := [],
    stockLogs := [], restocks := [] }

/-- Two posted lines: 2 units of product A, then 5 units of product B (which
only has 3 in stock). -/
def linesC1 : List SaleLine :=
  [{ product_id := some 1, quantity := some 2 },
   { product_id := some 2, quantity := some 5 }]

/-- Product for claim C3: created with stock 5. -/
def prodC3 : Product :=
  { id := 1, businessId := 1, name := "rice", stock_quantity := 5,
    buying_price := 100, selling_price := 150, low_stock_threshold := 0,
    initial_stock := 5, current_stock := 5, last_restocked := none }

/-- Store for claim C3. -/
def dbC3 : DB :=
  { products := [prodC3], sales := [], saleItems := [], stockLogs := [],
    restocks := [] }

/-- Non-credit sale for claim C5 with `total_amount = 100` and
`amount_paid = 0`. -/
def saleC5 : Sale :=
  { id := 7, businessId := 1, total_amount := 100,
    receipt_number := "REC-20260101-0001", dateStr := "20260101",
    is_credit := false, amount_paid := 0, balance := 0 }

/-- Product for claim C7, stock 10. -/
def prodC7 : Product :=
  { id := 1, businessId := 1, name := "oil", stock_quantity := 10,
    buying_price := 100, selling_price := 150, low_stock_threshold := 0,
    initial_stock := 10, current_stock := 10, last_restocked := none }

/-- Store for claim C7. -/
def dbC7 : DB :=
  { products := [prodC7], sales := [], saleItems := [], stockLogs := [],
    restocks := [] }

/-- An empty store. -/
def dbEmpty : DB :=
  { products := [], sales := [], saleItems := [], stockLogs := [],
    restocks := [] }

/-- Store for the C6 witness: one product with stock 10 and price 200. -/
def dbC6 : DB :=
  { products := [prodA], sales := [], saleItems := [], stockLogs := [],
    restocks := [] }

/-- A single posted line of 2 units of product 1, for the C6 witness. -/
def linesC6 : List SaleLine := [{ product_id := some 1, quantity := some 2 }]

/-- Business 1's first sale on 2026-01-01, for the C8 witness. -/
def saleB1 : Sale :=
  { id := 1, businessId := 1, total_amount := 0,
    receipt_number := "REC-20260101-0001", dateStr := "20260101",
    is_credit := false, amount_paid := 0, balance := 0 }

/-- Store holding business 1's sale, for the C8 witness. -/
def dbC8w : DB :=
  { products := [], sales := [saleB1], saleItems := [], stockLogs := [],
    restocks := [] }

/-- The per-line skip conditions of `create_sale` (views.py lines 50-57), in
the order the code checks them: a blank product or blank quantity is skipped
before any lookup (`if not product_id or not quantity: continue`), and a line
whose product resolves for the business is skipped after the lookup when its
quantity is non-positive (`if quantity <= 0: continue`). -/
def skippableLine (db : DB) (biz : Nat) (l : SaleLine) : Bool :=
  match l.product_id, l.quantity with
  | none, _ => true
  | some _, none => true
  | some pid, some qty =>
      decide (qty ≤ 0) && (getProduct db pid biz).isSome

/-- Product for the C9 witness. -/
def prodC9 : Product :=
  { id := 1, businessId := 1, name := "salt", stock_quantity := 4,
    buying_price := 50, selling_price := 80, low_stock_threshold := 0,
    initial_stock := 4, current_stock := 4, last_restocked := none }

/-- Store for the C9 witness. -/
def dbC9w : DB :=
  { products := [prodC9], sales := [], saleItems := [], stockLogs := [],
    restocks := [] }

/-!
## Theorems
-/

/-- C1.  The claim states that when some line of `create_sale` fails with
insufficient stock nothing persists.  The code instead catches the
`ValidationError`, calls `sale.delete()` and returns the error response
normally from inside `transaction.atomic()`, which commits the transaction:
the earlier lines' stock decrements and ledger entries persist; only the Sale
row and its cascading SaleItem rows are removed.  Concretely: selling 2×A then
5×B (B has stock 3) reports `InsufficientStock` for B, yet A's stock is
committed as 8 (not 10) and A's "sale" ledger entry survives. -/
theorem createSale_partial_commit_on_insufficient :
    (create_sale dbC1 1 "20260101" linesC1).2 =
      CreateSaleResult.insufficientStock "B" ∧
    ((create_sale dbC1 1 "20260101" linesC1).1.products.map
      (fun p => p.stock_quantity)) = [8, 3] ∧
    (create_sale dbC1 1 "20260101" linesC1).1.sales = [] ∧
    (create_sale dbC1 1 "20260101" linesC1).1.saleItems = [] ∧
    ((create_sale dbC1 1 "20260101" linesC1).1.stockLogs.map
      (fun l => (l.productId, l.quantity_change))) = [(1, -2)] := by decide

/-- C2 counterexample.  The claim states that a rejected `update_stock` call
leaves the product object handed to the caller untouched.  The effective
`update_stock` increments `self.stock_quantity` before the negativity check,
so after the failed call the caller's in-memory product holds the negative
value: with stock 3 and delta −5 the call raises and persists nothing, but
the object's `stock_quantity` is −2, not 3. -/
theorem updateStock_mutates_caller_object :
    (update_stock prodC2 (-5)).raised = true ∧
    (update_stock prodC2 (-5)).persisted = none ∧
    (update_stock prodC2 (-5)).inMemory.stock_quantity = -2 ∧
    prodC2.stock_quantity = 3 := by decide

/-- C2 as amended.  When `stock_quantity + delta < 0`, `update_stock` raises
the insufficient-stock error and persists nothing (row and ledger untouched),
but the in-memory product object is left with `stock_quantity` already
incremented by the delta; every other in-memory field is unchanged. -/
theorem updateStock_insufficient_characterization (p : Product) (d : Int)
    (h : p.stock_quantity + d < 0) :
    (update_stock p d).raised = true ∧
    (update_stock p d).persisted = none ∧
    (update_stock p d).inMemory =
      { p with stock_quantity := p.stock_quantity + d } := by
  unfold update_stock
  rw [if_pos h]
  exact ⟨rfl, rfl, rfl⟩

/-- Witness for `updateStock_insufficient_characterization` at stock 3,
delta −5. -/
theorem updateStock_insufficient_witness :
    (update_stock prodC2 (-5)).raised = true ∧
    (update_stock prodC2 (-5)).persisted = none ∧
    (update_stock prodC2 (-5)).inMemory =
      { prodC2 with stock_quantity := prodC2.stock_quantity + (-5) } :=
  updateStock_insufficient_characterization prodC2 (-5) (by decide)

/-- C3.  The claim states that every operation changing `stock_quantity`
appends a matching ledger entry, so the ledger replay reproduces the current
stock.  `Restock.save` mutates stock through `update_stock`, which writes no
StockLog row: restocking 20 units onto stock 5 leaves stock 25, an empty
ledger, and a replay value of 5 ≠ 25. -/
theorem restockSave_breaks_ledger_replay :
    ((restockModelSave dbC3 1 20 7).products.map
      (fun p => p.stock_quantity)) = [25] ∧
    (restockModelSave dbC3 1 20 7).stockLogs = [] ∧
    ledgerReplay (restockModelSave dbC3 1 20 7) 1 = 5 := by decide

/-- C5.  The claim states that the Sale persistence operation enforces the
credit rule on every save.  The second definition of `Sale.save` shadows the
first in Python, so the save that actually runs never touches `amount_paid`
or `balance`: saving a non-credit sale with `total_amount = 100` and
`amount_paid = 0` leaves `amount_paid = 0 ≠ total_amount`, while the shadowed
first definition would have set `amount_paid = 100` and `balance = 0`. -/
theorem saleSave_credit_rule_shadowed :
    (saleSave saleC5 [] false).amount_paid = 0 ∧
    (saleSave saleC5 [] false).amount_paid ≠
      (saleSave saleC5 [] false).total_amount ∧
    (saleSaveCredit saleC5).amount_paid = saleC5.total_amount ∧
    (saleSaveCredit saleC5).balance = 0 := by decide

/-- C4 counterexample.  The claim states that the counter is the numerically
highest existing suffix plus one.  The code orders by the receipt string, so
once a five-digit suffix exists the string maximum differs from the numeric
maximum: with receipts …-9999 and …-10000 on file the claim's rule yields
…-10001 but the code computes …-10000 (a duplicate). -/
theorem nextReceipt_string_order_counterexample :
    nextReceiptNumber "20260101"
      ["", "REC-20260101-9999", "REC-20260101-10000"] =
      "REC-20260101-10000" ∧
    claimNextReceipt "20260101"
      ["", "REC-20260101-9999", "REC-20260101-10000"] =
      "REC-20260101-10001" ∧
    ("REC-20260101-10000" : String) ≠ "REC-20260101-10001" := by decide

/-- C7 counterexample.  The claim states that a non-positive restock quantity
is rejected with `InvalidQuantity` and causes no mutation.  The view performs
no positivity check and hands the quantity to the stock mutator: restocking
−3 onto stock 10 succeeds, commits stock 7 and appends a "restock" ledger
entry with `quantity_change = −3`. -/
theorem restock_negative_quantity_accepted :
    (restock_product dbC7 1 1 (-3) none none "RESTOCK-1").2 =
      RestockResult.success ∧
    ((restock_product dbC7 1 1 (-3) none none "RESTOCK-1").1.products.map
      (fun p => p.stock_quantity)) = [7] ∧
    ((restock_product dbC7 1 1 (-3) none none "RESTOCK-1").1.stockLogs.map
      (fun l => (l.action, l.quantity_change))) = [("restock", -3)] := by
  decide

/-- C8 counterexample.  The claim states that receipt uniqueness is scoped
per business so two businesses can both commit REC-YYYYMMDD-0001 on the same
date.  The column constraint is `unique=True`, global: business 1's first
sale takes REC-20260101-0001, and business 2's first sale on the same date
computes the same number and its save fails with an integrity error. -/
theorem receipt_global_unique_counterexample :
    (createEmptySaleUnique dbEmpty 1 "20260101").toOption.map
      (fun r => r.2) = some "REC-20260101-0001" ∧
    ((createEmptySaleUnique dbEmpty 1 "20260101").toOption.bind
      (fun r => (createEmptySaleUnique r.1 2 "20260101").toOption)) =
      none := by decide

/-- C9 counterexample.  The claim states that when every line is filtered out
`create_sale` fails with `InvalidLine` and persists no Sale row.  The code
has no such check: posting a single all-blank line reports success and
commits a Sale row with no items and `total_amount = 0`. -/
theorem createSale_no_lines_still_creates_sale :
    (create_sale dbEmpty 1 "20260101"
      [{ product_id := none, quantity := none }]).2 =
      CreateSaleResult.success 1 ∧
    ((create_sale dbEmpty 1 "20260101"
      [{ product_id := none, quantity := none }]).1.sales.map
      (fun s => (s.receipt_number, s.total_amount))) =
      [("REC-20260101-0001", 0)] := by decide

/-- Every stock-mutation path leaves `current_stock` unchanged: the effective
`update_stock` and the spec-modelled mutator touch only `stock_quantity`, and
`Restock.save` additionally touches only `last_restocked`. -/
theorem applyStockOp_current_stock (p : Product) (op : StockOp) :
    (applyStockOp p op).current_stock = p.current_stock := by
  cases op with
  | saleLine qty ref =>
      simp only [applyStockOp, log_stock_change]
      by_cases h : p.stock_quantity + -qty < 0
      · rw [if_pos h]
      · rw [if_neg h]
  | restockView qty ref =>
      simp only [applyStockOp, log_stock_change]
      by_cases h : p.stock_quantity + qty < 0
      · rw [if_pos h]
      · rw [if_neg h]
  | restockModel q now =>
      simp only [applyStockOp, update_stock]
      by_cases h : p.stock_quantity + Int.ofNat q < 0
      · rw [if_pos h]
      · rw [if_neg h]
  | direct d =>
      simp only [applyStockOp, update_stock]
      by_cases h : p.stock_quantity + d < 0
      · rw [if_pos h]
      · rw [if_neg h]

/-- Folding any operation sequence preserves `current_stock`. -/
theorem foldl_applyStockOp_current_stock (ops : List StockOp) :
    ∀ q : Product,
      (ops.foldl applyStockOp q).current_stock = q.current_stock := by
  induction ops with
  | nil => intro q; rfl
  | cons op rest ih =>
      intro q
      rw [List.foldl_cons, ih, applyStockOp_current_stock]

/-- C10.  After a product is created (which sets `current_stock` to the
creation-time `stock_quantity`), every sequence of sale and restock mutations
— sale lines and view restocks through the stock mutator, model restocks
through `Restock.save`, and direct `update_stock` calls — leaves
`current_stock` at exactly that creation-time value, because the effective
`update_stock` definition modifies only `stock_quantity`. -/
theorem currentStock_constant_after_creation (p : Product)
    (ops : List StockOp) :
    (ops.foldl applyStockOp (productCreateSave p)).current_stock =
      p.stock_quantity := by
  rw [foldl_applyStockOp_current_stock]
  rfl


theorem digitChar_lt_iff : ∀ x, x < 10 → ∀ y, y < 10 →
    ((Nat.digitChar x < Nat.digitChar y) ↔ x < y) := by decide

theorem digitChar_eq_iff : ∀ x, x < 10 → ∀ y, y < 10 →
    ((Nat.digitChar x = Nat.digitChar y) ↔ x = y) := by decide

theorem digitVal?_digitChar : ∀ x, x < 10 →
    digitVal? (Nat.digitChar x) = some x := by decide

theorem digitChar_ne_dash : ∀ x, x < 10 → Nat.digitChar x ≠ '-' := by decide

theorem lex_cons_char_iff (c₁ c₂ : Char) (l₁ l₂ : List Char) :
    List.Lex (· < ·) (c₁ :: l₁) (c₂ :: l₂) ↔
      (c₁ < c₂ ∨ (c₁ = c₂ ∧ List.Lex (· < ·) l₁ l₂)) := by
  constructor
  · intro h
    cases h with
    | cons h => exact Or.inr ⟨rfl, h⟩
    | rel h => exact Or.inl h
  · intro h
    rcases h with h | ⟨rfl, h⟩
    · exact List.Lex.rel h
    · exact List.Lex.cons h

theorem lex_digit_cons_iff (x y : Nat) (hx : x < 10) (hy : y < 10)
    (l₁ l₂ : List Char) :
    List.Lex (· < ·) (Nat.digitChar x :: l₁) (Nat.digitChar y :: l₂) ↔
      (x < y ∨ (x = y ∧ List.Lex (· < ·) l₁ l₂)) := by
  rw [lex_cons_char_iff, digitChar_lt_iff x hx y hy, digitChar_eq_iff x hx y hy]

theorem lex_nil_nil_iff : List.Lex (· < ·) ([] : List Char) [] ↔ False :=
  ⟨fun h => List.Lex.not_nil_right _ _ h, False.elim⟩

theorem digits_lex_arith (A3 A2 A1 A0 B3 B2 B1 B0 a b : Nat)
    (da : a = 1000*A3 + 100*A2 + 10*A1 + A0)
    (db : b = 1000*B3 + 100*B2 + 10*B1 + B0)
    (hA2 : A2 ≤ 9) (hA1 : A1 ≤ 9) (hA0 : A0 ≤ 9)
    (hB2 : B2 ≤ 9) (hB1 : B1 ≤ 9) (hB0 : B0 ≤ 9) :
    (A3 < B3 ∨ (A3 = B3 ∧ (A2 < B2 ∨ (A2 = B2 ∧ (A1 < B1 ∨ (A1 = B1 ∧
      A0 < B0)))))) ↔ a < b := by
  constructor
  · intro h
    rcases h with h | ⟨e3, h | ⟨e2, h | ⟨e1, h⟩⟩⟩ <;> omega
  · intro h
    omega

theorem fourChars_lex_iff (a b : Nat) (ha : a ≤ 9999) (hb : b ≤ 9999) :
    List.Lex (· < ·) (fourChars a) (fourChars b) ↔ a < b := by
  have h3a : a / 1000 < 10 := by omega
  have h3b : b / 1000 < 10 := by omega
  have h2a : a / 100 % 10 < 10 := by omega
  have h2b : b / 100 % 10 < 10 := by omega
  have h1a : a / 10 % 10 < 10 := by omega
  have h1b : b / 10 % 10 < 10 := by omega
  have h0a : a % 10 < 10 := by omega
  have h0b : b % 10 < 10 := by omega
  have e1 := (lex_digit_cons_iff _ _ h0a h0b ([] : List Char) []).trans
    (or_congr Iff.rfl (and_congr Iff.rfl lex_nil_nil_iff))
  have e2 := (lex_digit_cons_iff _ _ h1a h1b _ _).trans
    (or_congr Iff.rfl (and_congr Iff.rfl e1))
  have e3 := (lex_digit_cons_iff _ _ h2a h2b _ _).trans
    (or_congr Iff.rfl (and_congr Iff.rfl e2))
  have e4 := (lex_digit_cons_iff _ _ h3a h3b _ _).trans
    (or_congr Iff.rfl (and_congr Iff.rfl e3))
  rw [fourChars, fourChars, e4]
  simp only [and_false, or_false]
  exact digits_lex_arith (a/1000) (a/100%10) (a/10%10) (a%10)
    (b/1000) (b/100%10) (b/10%10) (b%10) a b
    (by omega) (by omega) (by omega) (by omega) (by omega)
    (by omega) (by omega) (by omega)

theorem splitChar_ne_nil (c : Char) : ∀ l : List Char, splitChar c l ≠ [] := by
  intro l
  cases l with
  | nil => simp [splitChar]
  | cons x xs =>
      rw [splitChar]
      by_cases h : x = c
      · simp [h]
      · rw [if_neg h]
        cases hs : splitChar c xs <;> simp

theorem splitChar_of_not_mem (c : Char) : ∀ l : List Char, c ∉ l → splitChar c l = [l] := by
  intro l
  induction l with
  | nil => intro _; rfl
  | cons x xs ih =>
      intro h
      have hx : ¬ x = c := fun e => h (by simp [e])
      have hxs : c ∉ xs := fun m => h (by simp [m])
      rw [splitChar, if_neg hx, ih hxs]

theorem getLastD_of_ne_nil {α : Type} (l : List α) (h : l ≠ []) (d d' : α) :
    l.getLastD d = l.getLastD d' := by
  cases l with
  | nil => exact absurd rfl h
  | cons x xs => rw [List.getLastD_cons, List.getLastD_cons]

theorem splitChar_length_ge_two (c : Char) : ∀ (p s : List Char),
    2 ≤ (splitChar c (p ++ c :: s)).length := by
  intro p
  induction p with
  | nil =>
      intro s
      rw [List.nil_append, splitChar, if_pos rfl, List.length_cons]
      have h1 : 0 < (splitChar c s).length :=
        List.length_pos.mpr (splitChar_ne_nil c s)
      omega
  | cons x p ih =>
      intro s
      rw [List.cons_append, splitChar]
      by_cases hx : x = c
      · rw [if_pos hx, List.length_cons]
        have h1 : 0 < (splitChar c (p ++ c :: s)).length :=
          List.length_pos.mpr (splitChar_ne_nil c _)
        omega
      · rw [if_neg hx]
        cases hs : splitChar c (p ++ c :: s) with
        | nil => exact absurd hs (splitChar_ne_nil c _)
        | cons y ys =>
            rw [List.length_cons]
            have h2 := ih s
            rw [hs, List.length_cons] at h2
            omega

theorem getLastD_splitChar_append (c : Char) : ∀ (p s : List Char),
    (splitChar c (p ++ c :: s)).getLastD [] = (splitChar c s).getLastD [] := by
  intro p
  induction p with
  | nil =>
      intro s
      rw [List.nil_append, splitChar, if_pos rfl, List.getLastD_cons]
  | cons x p ih =>
      intro s
      rw [List.cons_append, splitChar]
      by_cases hx : x = c
      · rw [if_pos hx, List.getLastD_cons]
        exact (getLastD_of_ne_nil _ (splitChar_ne_nil c _) _ _).trans (ih s)
      · rw [if_neg hx]
        cases hs : splitChar c (p ++ c :: s) with
        | nil => exact absurd hs (splitChar_ne_nil c _)
        | cons y ys =>
            cases ys with
            | nil =>
                have h2 := splitChar_length_ge_two c p s
                rw [hs] at h2
                simp at h2
            | cons y' ys' =>
                rw [List.getLastD_cons]
                have h3 := ih s
                rw [hs, List.getLastD_cons] at h3
                exact h3

theorem lastSeg_no_dash (p s : List Char) (hs : '-' ∉ s) :
    (splitChar '-' (p ++ '-' :: s)).getLastD [] = s := by
  rw [getLastD_splitChar_append, splitChar_of_not_mem _ _ hs,
    List.getLastD_cons, List.getLastD_nil]

theorem fourChars_not_mem_dash (n : Nat) (hn : n ≤ 9999) :
    '-' ∉ fourChars n := by
  intro h
  rw [fourChars] at h
  simp only [List.mem_cons, List.not_mem_nil, or_false] at h
  rcases h with h | h | h | h
  · exact digitChar_ne_dash (n / 1000) (by omega) h.symm
  · exact digitChar_ne_dash (n / 100 % 10) (by omega) h.symm
  · exact digitChar_ne_dash (n / 10 % 10) (by omega) h.symm
  · exact digitChar_ne_dash (n % 10) (by omega) h.symm

theorem charsToNat?_fourChars (n : Nat) (hn : n ≤ 9999) :
    charsToNat? (fourChars n) = some n := by
  rw [fourChars, charsToNat?, if_neg (by simp)]
  simp only [List.foldl_cons, List.foldl_nil,
    digitVal?_digitChar (n / 1000) (by omega),
    digitVal?_digitChar (n / 100 % 10) (by omega),
    digitVal?_digitChar (n / 10 % 10) (by omega),
    digitVal?_digitChar (n % 10) (by omega),
    Option.some_bind, Option.map_some']
  rw [Option.some.injEq]
  omega

theorem lex_append_left_iff (p l₁ l₂ : List Char) :
    List.Lex (· < ·) (p ++ l₁) (p ++ l₂) ↔ List.Lex (· < ·) l₁ l₂ := by
  induction p with
  | nil => exact Iff.rfl
  | cons c p ih =>
      rw [List.cons_append, List.cons_append, lex_cons_char_iff]
      simp [lt_self_iff_false, ih]

theorem pad4_data (n : Nat) (hn : n ≤ 9999) : (pad4 n).data = fourChars n := by
  rw [pad4, if_pos hn]

theorem recStr_lt_iff (d : String) (a b : Nat) (ha : a ≤ 9999) (hb : b ≤ 9999) :
    ((recStr d a).data < (recStr d b).data) ↔ a < b := by
  show List.Lex (· < ·) (recStr d a).data (recStr d b).data ↔ a < b
  rw [recStr, recStr]
  simp only [String.data_append]
  rw [pad4_data a ha, pad4_data b hb]
  exact (lex_append_left_iff _ _ _).trans (fourChars_lex_iff a b ha hb)

theorem maxReceipt_cons_some (r m : String) (rs : List String)
    (h : maxReceipt rs = some m) :
    maxReceipt (r :: rs) = if m.data < r.data then some r else some m := by
  rw [maxReceipt, h]

theorem nextReceiptNumber_of_parse (d : String) (l : List String) (m : String)
    (n : Nat) (h1 : maxReceipt l = some m) (h2 : parseTrailing m = some n) :
    nextReceiptNumber d l = "REC-" ++ d ++ "-" ++ pad4 (n + 1) := by
  simp only [nextReceiptNumber, h1, h2]

theorem natMaxList_le (n : Nat) : ∀ l : List Nat,
    (∀ x ∈ l, x ≤ n) → natMaxList l ≤ n := by
  intro l
  induction l with
  | nil => intro _; exact Nat.zero_le n
  | cons k ks ih =>
      intro h
      rw [natMaxList]
      exact max_le (h k (by simp)) (ih fun x hx => h x (by simp [hx]))

theorem maxReceipt_map_recStr (d : String) : ∀ (ks : List Nat) (k : Nat),
    k ≤ 9999 → (∀ x ∈ ks, x ≤ 9999) →
    maxReceipt ((k :: ks).map (recStr d)) =
      some (recStr d (max k (natMaxList ks))) := by
  intro ks
  induction ks with
  | nil =>
      intro k _ _
      rw [List.map_cons, List.map_nil, maxReceipt, maxReceipt, natMaxList]
      rw [Nat.max_zero]
  | cons k' ks' ih =>
      intro k hk hks
      have hk' : k' ≤ 9999 := hks k' (by simp)
      have hks' : ∀ x ∈ ks', x ≤ 9999 := fun x hx => hks x (by simp [hx])
      have hM : max k' (natMaxList ks') ≤ 9999 :=
        max_le hk' (natMaxList_le _ _ hks')
      rw [List.map_cons, maxReceipt_cons_some _ _ _ (ih k' hk' hks')]
      by_cases hlt : max k' (natMaxList ks') < k
      · rw [if_pos ((recStr_lt_iff d _ _ hM hk).mpr hlt), natMaxList,
          show max k (max k' (natMaxList ks')) = k from
            Nat.max_eq_left (Nat.le_of_lt hlt)]
      · rw [if_neg (fun hc => hlt ((recStr_lt_iff d _ _ hM hk).mp hc)),
          natMaxList,
          show max k (max k' (natMaxList ks')) = max k' (natMaxList ks') from
            Nat.max_eq_right (Nat.le_of_not_lt hlt)]

theorem parseTrailing_recStr (d : String) (n : Nat) (hn : n ≤ 9999) :
    parseTrailing (recStr d n) = some n := by
  rw [parseTrailing, recStr, String.data_append, String.data_append,
    String.data_append, pad4_data n hn, List.append_assoc,
    show ("-".data = ['-']) from rfl, List.singleton_append,
    lastSeg_no_dash ("REC-".data ++ d.data) (fourChars n)
      (fourChars_not_mem_dash n hn),
    charsToNat?_fourChars n hn]

/-- C4 as amended.  As long as every existing suffix for the business and
date is at most 9999 (so all receipts carry the canonical 4-digit zero-padded
form), ordering by the receipt string coincides with numeric order and the
assigned counter is the numerically highest existing suffix plus one (1 when
none exists, since the sale's own blank transient receipt fails to parse).
Beyond 9999 the string order diverges from numeric order (see the
counterexample). -/
theorem nextReceipt_numeric_max (d : String) (ks : List Nat)
    (hks : ∀ k ∈ ks, k ≤ 9999) :
    nextReceiptNumber d ("" :: ks.map (recStr d)) =
      recStr d (natMaxList ks + 1) := by
  cases ks with
  | nil => rfl
  | cons k ks' =>
      have hk : k ≤ 9999 := hks k (by simp)
      have hks' : ∀ x ∈ ks', x ≤ 9999 := fun x hx => hks x (by simp [hx])
      have hmax := maxReceipt_map_recStr d ks' k hk hks'
      have hM : max k (natMaxList ks') ≤ 9999 :=
        max_le hk (natMaxList_le _ _ hks')
      rw [List.map_cons] at hmax ⊢
      have h1 : maxReceipt ("" :: recStr d k :: List.map (recStr d) ks') =
          some (recStr d (max k (natMaxList ks'))) := by
        rw [maxReceipt_cons_some _ _ _ hmax,
          if_neg (show ¬((recStr d (max k (natMaxList ks'))).data < "".data)
            from List.Lex.not_nil_right _ _)]
      rw [nextReceiptNumber_of_parse d _ _ _ h1 (parseTrailing_recStr d _ hM),
        recStr, natMaxList]

/-- Witness for `nextReceipt_numeric_max`: with receipts 0002 and 0005 on
file the next receipt is 0006. -/
theorem nextReceipt_numeric_max_witness :
    nextReceiptNumber "20260101" ("" :: [2, 5].map (recStr "20260101")) =
      recStr "20260101" (natMaxList [2, 5] + 1) :=
  nextReceipt_numeric_max "20260101" [2, 5] (by decide)

theorem le_foldr_max (x : Nat) : ∀ l : List Nat, x ∈ l →
    x ≤ l.foldr (fun a b => max a b) 0 := by
  intro l
  induction l with
  | nil => intro h; exact absurd h (List.not_mem_nil x)
  | cons y ys ih =>
      intro h
      rw [List.foldr_cons]
      rcases List.mem_cons.mp h with rfl | h
      · exact Nat.le_max_left _ _
      · exact Nat.le_trans (ih h) (Nat.le_max_right _ _)

theorem lt_freshSaleId (db : DB) : ∀ s ∈ db.sales, s.id < freshSaleId db := by
  intro s hs
  have : s.id ≤ (db.sales.map (fun t => t.id)).foldr (fun a b => max a b) 0 :=
    le_foldr_max s.id _ (List.mem_map.mpr ⟨s, hs, rfl⟩)
  rw [freshSaleId]
  omega

theorem nextReceiptNumber_ne_empty (d : String) (l : List String) :
    nextReceiptNumber d l ≠ "" := by
  intro h
  have hd := congrArg String.data h
  simp only [nextReceiptNumber, String.data_append,
    show ("REC-".data = ['R', 'E', 'C', '-']) from rfl] at hd
  simp at hd

theorem find?_replace_eq (sale s2 : Sale) (hid : s2.id = sale.id) :
    ∀ l : List Sale, sale ∈ l → (∀ s ∈ l, s.id = sale.id → s = sale) →
    (l.map (fun t => if t.id == sale.id then s2 else t)).find?
      (fun s => s.id == sale.id) = some s2 := by
  intro l
  induction l with
  | nil => intro h _; exact absurd h (List.not_mem_nil sale)
  | cons t ts ih =>
      intro hmem huniq
      rw [List.map_cons]
      by_cases ht : t.id = sale.id
      · rw [if_pos (by exact beq_iff_eq.mpr ht)]
        exact List.find?_cons_of_pos _ (beq_iff_eq.mpr hid)
      · rw [if_neg (by exact fun hb => ht (beq_iff_eq.mp hb))]
        rw [show List.find? (fun s => s.id == sale.id)
            (t :: List.map (fun t => if t.id == sale.id then s2 else t) ts) =
            List.find? (fun s => s.id == sale.id)
              (List.map (fun t => if t.id == sale.id then s2 else t) ts) from
          List.find?_cons_of_neg _ (by simp [ht])]
        apply ih
        · rcases List.mem_cons.mp hmem with rfl | hm
          · exact absurd rfl ht
          · exact hm
        · exact fun s hs => huniq s (List.mem_cons_of_mem t hs)

theorem putProduct_saleItems (db : DB) (p : Product) :
    (putProduct db p).saleItems = db.saleItems := rfl

theorem putProduct_sales (db : DB) (p : Product) :
    (putProduct db p).sales = db.sales := rfl

theorem filter_map_sum_snoc (A : List SaleItem) (item : SaleItem) (sid : Nat)
    (h : item.saleId = sid) :
    (((A ++ [item]).filter (fun it => it.saleId == sid)).map
      (fun it => it.total_price)).sum =
    ((A.filter (fun it => it.saleId == sid)).map
      (fun it => it.total_price)).sum + item.total_price := by
  rw [List.filter_append,
    show List.filter (fun it => it.saleId == sid) [item] = [item] from by
      simp [h],
    List.map_append, List.sum_append]
  simp

theorem saleLoop_success_inv (biz : Nat) (sale : Sale)
    (hrn : sale.receipt_number ≠ "") :
    ∀ (lines : List SaleLine) (db0 db : DB) (total : Int) (db' : DB)
      (sid : Nat),
      saleLoop db0 biz sale lines db total = (db', CreateSaleResult.success sid) →
      itemsTotal db sale.id = total →
      itemsPriced db sale.id →
      sale ∈ db.sales →
      (∀ s ∈ db.sales, s.id = sale.id → s = sale) →
      sid = sale.id ∧ saleTotalOf db' sale.id = some (itemsTotal db' sale.id) ∧
        itemsPriced db' sale.id := by
  intro lines
  induction lines with
  | nil =>
      intro db0 db total db' sid hrun htot hpriced hmem huniq
      rw [saleLoop] at hrun
      have hs2 : saleSave { sale with total_amount := total } [] false =
          { sale with total_amount := total } := by
        rw [saleSave, if_neg hrn]
      rw [hs2] at hrun
      obtain ⟨h1, h2⟩ := Prod.mk.injEq .. |>.mp hrun
      have hsid : sid = sale.id := (CreateSaleResult.success.injEq .. |>.mp h2).symm
      subst h1
      refine ⟨hsid, ?_, hpriced⟩
      show (List.find? (fun s => s.id == sale.id)
        (db.sales.map (fun t => if t.id == sale.id
          then { sale with total_amount := total } else t))).map
        (fun s => s.total_amount) = some (itemsTotal db sale.id)
      rw [find?_replace_eq sale { sale with total_amount := total } rfl
        db.sales hmem huniq, Option.map_some', htot]
  | cons line rest ih =>
      intro db0 db total db' sid hrun htot hpriced hmem huniq
      rcases line with ⟨pid?, qty?⟩
      rcases pid? with _ | pid
      · rw [saleLoop] at hrun
        exact ih db0 db total db' sid hrun htot hpriced hmem huniq
      rcases qty? with _ | qty
      · rw [saleLoop] at hrun
        exact ih db0 db total db' sid hrun htot hpriced hmem huniq
      cases hgp : getProduct db pid biz with
      | none =>
          simp only [saleLoop, hgp] at hrun
          exact CreateSaleResult.noConfusion (congrArg Prod.snd hrun)
      | some product =>
          simp only [saleLoop, hgp] at hrun
          by_cases hq : qty ≤ 0
          · rw [if_pos hq] at hrun
            exact ih db0 db total db' sid hrun htot hpriced hmem huniq
          · rw [if_neg hq] at hrun
            cases hlog : log_stock_change product "sale" (-qty)
                sale.receipt_number with
            | error e =>
                simp only [hlog] at hrun
                exact CreateSaleResult.noConfusion (congrArg Prod.snd hrun)
            | ok pr =>
                obtain ⟨p1, log⟩ := pr
                simp only [hlog, saleItemSave] at hrun
                apply ih db0 _ _ db' sid hrun ?_ ?_ ?_ ?_
                · rw [itemsTotal] at htot ⊢
                  rw [putProduct_saleItems]
                  rw [filter_map_sum_snoc db.saleItems
                    { saleId := sale.id, productId := pid, quantity := qty,
                      unit_price := product.selling_price,
                      total_price := qty * product.selling_price }
                    sale.id rfl, htot]
                · intro it hit hid
                  have hit2 : it ∈ db.saleItems ++
                      [({ saleId := sale.id, productId := pid, quantity := qty,
                          unit_price := product.selling_price,
                          total_price := qty * product.selling_price } :
                        SaleItem)] := hit
                  rcases List.mem_append.mp hit2 with hit3 | hit3
                  · exact hpriced it hit3 hid
                  · rw [List.mem_singleton.mp hit3]
                · exact hmem
                · exact huniq

theorem saleSave_new_receipt (s : Sale) (receipts : List String)
    (h : s.receipt_number = "") :
    saleSave s receipts true =
      { s with receipt_number :=
          nextReceiptNumber s.dateStr ("" :: receipts) } := by
  rw [saleSave, if_pos h]
  rfl

/-- C6.  Whenever `create_sale` commits successfully, the persisted sale's
`total_amount` equals the sum of `total_price` over its SaleItem rows, and
every such row satisfies `total_price = quantity * unit_price` (the
`unit_price` being the product's selling price snapshotted when the line was
processed).  The freshness hypothesis says no pre-existing SaleItem row
already references the id the new sale will receive, which a database with
foreign-key-consistent rows always satisfies. -/
theorem createSale_items_sum_eq_total (db0 : DB) (biz : Nat) (dateStr : String)
    (lines : List SaleLine) (db' : DB) (sid : Nat)
    (hfresh : ∀ it ∈ db0.saleItems, it.saleId ≠ freshSaleId db0)
    (hrun : create_sale db0 biz dateStr lines =
      (db', CreateSaleResult.success sid)) :
    saleTotalOf db' sid = some (itemsTotal db' sid) ∧ itemsPriced db' sid := by
  simp only [create_sale, saleSave_new_receipt] at hrun
  have hne := nextReceiptNumber_ne_empty dateStr
    ("" :: (db0.sales.filter (fun s => s.businessId == biz &&
      s.dateStr == dateStr)).map (fun s => s.receipt_number))
  have hfilter : List.filter (fun it => it.saleId == freshSaleId db0)
      db0.saleItems = [] :=
    List.filter_eq_nil_iff.mpr (fun it hit hb =>
      hfresh it hit (beq_iff_eq.mp hb))
  have htot0 : (((db0.saleItems.filter
      (fun it => it.saleId == freshSaleId db0)).map
      (fun it => it.total_price)).sum : Int) = 0 := by
    rw [hfilter]
    rfl
  have hpriced0 : ∀ it ∈ db0.saleItems, it.saleId = freshSaleId db0 →
      it.total_price = it.quantity * it.unit_price :=
    fun it hit hid => absurd hid (hfresh it hit)
  have huniq0 : ∀ (x : Sale) (s : Sale),
      s ∈ db0.sales ++ [x] → s.id = x.id → x.id = freshSaleId db0 → s = x := by
    intro x s hs hid hx
    rcases List.mem_append.mp hs with hs2 | hs2
    · have := lt_freshSaleId db0 s hs2
      exact absurd hid (by omega)
    · exact List.mem_singleton.mp hs2
  obtain ⟨hsid, h1, h2⟩ :=
    saleLoop_success_inv biz _ hne lines db0 _ 0 db' sid hrun htot0 hpriced0
      (List.mem_append_right _ (List.mem_singleton_self _))
      (fun s hs hid => huniq0 _ s hs hid rfl)
  rw [hsid]
  exact ⟨h1, h2⟩

/-- Witness for `createSale_items_sum_eq_total`: one line of 2 units at price
200 commits with `total_amount = 400`. -/
theorem createSale_items_sum_eq_total_witness :
    saleTotalOf (create_sale dbC6 1 "20260101" linesC6).1 1 =
      some (itemsTotal (create_sale dbC6 1 "20260101" linesC6).1 1) ∧
    itemsPriced (create_sale dbC6 1 "20260101" linesC6).1 1 :=
  createSale_items_sum_eq_total dbC6 1 "20260101" linesC6 _ 1
    (by decide) (by decide)

/-- C7 as amended.  The restock view performs no positivity check on the
quantity: any quantity — positive, zero or negative — succeeds whenever
`stock_quantity + quantity ≥ 0`, committing the signed change and appending a
"restock" ledger entry with that signed `quantity_change`; the only rejection
is the mutator's insufficient-stock error when `stock_quantity + quantity < 0`,
which persists nothing.  No `InvalidQuantity` error exists in the code. -/
theorem restock_no_positivity_check (db : DB) (biz pid : Nat) (q : Int)
    (ref : String) (p : Product) (hp : getProduct db pid biz = some p) :
    (0 ≤ p.stock_quantity + q →
      restock_product db biz pid q none none ref =
        ({ putProduct db { p with stock_quantity := p.stock_quantity + q } with
           stockLogs := db.stockLogs ++
             [{ productId := p.id, action := "restock", quantity_change := q,
                previous_stock := p.stock_quantity,
                new_stock := p.stock_quantity + q, reference := ref }] },
         RestockResult.success)) ∧
    (p.stock_quantity + q < 0 →
      restock_product db biz pid q none none ref =
        (db, RestockResult.insufficientMsg)) := by
  constructor
  · intro hge
    simp only [restock_product, hp, log_stock_change]
    rw [if_neg (by omega)]
  · intro hlt
    simp only [restock_product, hp, log_stock_change]
    rw [if_pos hlt]

/-- `skippableLine` reads only the product table, so changing the sales list
does not affect it. -/
theorem skippableLine_sales (db : DB) (ss : List Sale) (biz : Nat)
    (l : SaleLine) :
    skippableLine { db with sales := ss } biz l = skippableLine db biz l := rfl

/-- `getProduct` reads only the product table. -/
theorem getProduct_sales (db : DB) (ss : List Sale) (pid biz : Nat) :
    getProduct { db with sales := ss } pid biz = getProduct db pid biz := rfl

/-- When every remaining line is skippable, the sale loop performs no
mutation and ends in the success branch, updating only the sale's
`total_amount`. -/
theorem saleLoop_skipped (db0 : DB) (biz : Nat) (sale : Sale)
    (hrn : sale.receipt_number ≠ "") :
    ∀ (lines : List SaleLine) (db : DB) (total : Int),
      (∀ l ∈ lines, skippableLine db biz l = true) →
      saleLoop db0 biz sale lines db total =
        ({ db with sales := db.sales.map (fun t =>
            if t.id == sale.id then { sale with total_amount := total }
            else t) },
         CreateSaleResult.success sale.id) := by
  intro lines
  induction lines with
  | nil =>
      intro db total _
      rw [saleLoop]
      rw [show saleSave { sale with total_amount := total } [] false =
          { sale with total_amount := total } from by rw [saleSave, if_neg hrn]]
  | cons line rest ih =>
      intro db total hb
      rcases line with ⟨pid?, qty?⟩
      rcases pid? with _ | pid
      · rw [saleLoop]
        exact ih db total (fun l hl => hb l (List.mem_cons_of_mem _ hl))
      rcases qty? with _ | qty
      · rw [saleLoop]
        exact ih db total (fun l hl => hb l (List.mem_cons_of_mem _ hl))
      have hhead := hb _ (List.mem_cons_self _ _)
      simp only [skippableLine, Bool.and_eq_true] at hhead
      obtain ⟨hq, hsome⟩ := hhead
      obtain ⟨p, hgp⟩ := Option.isSome_iff_exists.mp hsome
      simp only [saleLoop, hgp]
      rw [if_pos (of_decide_eq_true hq)]
      exact ih db total (fun l hl => hb l (List.mem_cons_of_mem _ hl))

/-- When, after a skippable prefix, a line names a product that does not
resolve for the business, `get_object_or_404` raises and the whole
transaction rolls back to the original store, whatever the line's quantity
and whatever follows. -/
theorem saleLoop_notFound (db0 : DB) (biz : Nat) (sale : Sale) :
    ∀ (pre : List SaleLine) (db : DB) (total : Int),
      (∀ l ∈ pre, skippableLine db biz l = true) →
      ∀ (pid : Nat) (qty : Int) (rest : List SaleLine),
        getProduct db pid biz = none →
        saleLoop db0 biz sale
          (pre ++ { product_id := some pid, quantity := some qty } :: rest)
          db total = (db0, CreateSaleResult.notFound) := by
  intro pre
  induction pre with
  | nil =>
      intro db total _ pid qty rest hgp
      rw [List.nil_append]
      simp only [saleLoop, hgp]
  | cons line pre ih =>
      intro db total hb pid qty rest hgp
      rw [List.cons_append]
      rcases line with ⟨pid?, qty?⟩
      rcases pid? with _ | pid'
      · rw [saleLoop]
        exact ih db total (fun l hl => hb l (List.mem_cons_of_mem _ hl))
          pid qty rest hgp
      rcases qty? with _ | qty'
      · rw [saleLoop]
        exact ih db total (fun l hl => hb l (List.mem_cons_of_mem _ hl))
          pid qty rest hgp
      have hhead := hb _ (List.mem_cons_self _ _)
      simp only [skippableLine, Bool.and_eq_true] at hhead
      obtain ⟨hq, hsome⟩ := hhead
      obtain ⟨p, hgp'⟩ := Option.isSome_iff_exists.mp hsome
      simp only [saleLoop, hgp']
      rw [if_pos (of_decide_eq_true hq)]
      exact ih db total (fun l hl => hb l (List.mem_cons_of_mem _ hl))
        pid qty rest hgp

theorem map_replace_append (l : List Sale) (sale s2 : Sale)
    (h : ∀ t ∈ l, t.id ≠ sale.id) :
    (l ++ [sale]).map (fun t => if t.id == sale.id then s2 else t) =
      l ++ [s2] := by
  rw [List.map_append]
  congr 1
  · calc l.map (fun t => if t.id == sale.id then s2 else t)
        = l.map id := List.map_congr_left
          (fun t ht => by
            rw [if_neg (by simp [h t ht])]
            rfl)
      _ = l := List.map_id l
  · simp

/-- C9 as amended.  Lines with a blank product or blank quantity are skipped
before any lookup, and a line whose product resolves for the business is
skipped after the lookup when its quantity is non-positive.  When every line
is skipped, `create_sale` does not fail with `InvalidLine`: it reports
success and persists a Sale row with a freshly assigned receipt number, no
SaleItem rows and `total_amount = 0`, leaving products, items and ledger
untouched.  A non-blank line whose product id does not resolve for the
business (reached after skipped lines) instead raises `Http404`, rolling the
whole transaction back to the original store — whatever its quantity, since
the lookup precedes the quantity check. -/
theorem createSale_skipped_lines_empty_sale (db0 : DB) (biz : Nat)
    (d : String) (lines : List SaleLine) :
    ((∀ l ∈ lines, skippableLine db0 biz l = true) →
      create_sale db0 biz d lines =
        ({ db0 with sales := db0.sales ++
          [{ id := freshSaleId db0, businessId := biz, total_amount := 0,
             receipt_number := nextReceiptNumber d
               ("" :: (db0.sales.filter (fun s => s.businessId == biz &&
                 s.dateStr == d)).map (fun s => s.receipt_number)),
             dateStr := d, is_credit := false, amount_paid := 0,
             balance := 0 }] },
         CreateSaleResult.success (freshSaleId db0))) ∧
    (∀ (pre : List SaleLine) (pid : Nat) (qty : Int) (rest : List SaleLine),
      lines = pre ++ { product_id := some pid, quantity := some qty } :: rest →
      (∀ l ∈ pre, skippableLine db0 biz l = true) →
      getProduct db0 pid biz = none →
      create_sale db0 biz d lines = (db0, CreateSaleResult.notFound)) := by
  constructor
  · intro hblank
    simp only [create_sale, saleSave_new_receipt]
    rw [saleLoop_skipped db0 biz _ (nextReceiptNumber_ne_empty _ _) lines
      _ 0 (fun l hl =>
        (skippableLine_sales db0 _ biz l).trans (hblank l hl))]
    rw [show ({ db0 with sales := db0.sales ++
        [{ id := freshSaleId db0, businessId := biz, total_amount := 0,
           receipt_number := nextReceiptNumber d
             ("" :: (db0.sales.filter (fun s => s.businessId == biz &&
               s.dateStr == d)).map (fun s => s.receipt_number)),
           dateStr := d, is_credit := false, amount_paid := 0,
           balance := 0 }] } : DB).sales = db0.sales ++ [_] from rfl]
    rw [map_replace_append db0.sales _ _
      (fun t ht => by
        show t.id ≠ freshSaleId db0
        have := lt_freshSaleId db0 t ht
        omega)]
  · intro pre pid qty rest hsplit hpre hgp
    subst hsplit
    simp only [create_sale, saleSave_new_receipt]
    exact saleLoop_notFound db0 biz _ pre _ 0
      (fun l hl => (skippableLine_sales db0 _ biz l).trans (hpre l hl))
      pid qty rest ((getProduct_sales db0 _ pid biz).trans hgp)

/-- C8 as amended.  The storage constraint on `receipt_number` is a global
single-column `unique=True`, not the pair `(business, receipt_number)`.  Since
the sequencer computes per business and date, a business with no sales on a
date computes REC-YYYYMMDD-0001 for its first sale; if any other business
already holds that receipt, the save fails with an integrity error instead of
succeeding. -/
theorem receipt_crossBusiness_collision (db : DB) (biz : Nat) (d : String)
    (hnone : ∀ s ∈ db.sales, ¬(s.businessId = biz ∧ s.dateStr = d))
    (hex : ∃ s ∈ db.sales, s.receipt_number = "REC-" ++ d ++ "-" ++ pad4 1) :
    createEmptySaleUnique db biz d = Except.error () := by
  have hfilter : db.sales.filter
      (fun s => s.businessId == biz && s.dateStr == d) = [] :=
    List.filter_eq_nil_iff.mpr (fun s hs hb => hnone s hs (by
      rw [Bool.and_eq_true, beq_iff_eq, beq_iff_eq] at hb
      exact hb))
  simp only [createEmptySaleUnique, hfilter, List.map_nil,
    saleSave_new_receipt]
  obtain ⟨s, hs, hr⟩ := hex
  have hany : db.sales.any (fun t => t.receipt_number ==
      nextReceiptNumber d ("" :: [])) = true := by
    rw [List.any_eq_true]
    refine ⟨s, hs, ?_⟩
    rw [beq_iff_eq, hr]
    rfl
  rw [insertSaleUnique, if_pos hany]
  rfl

/-- Witness for `restock_no_positivity_check` at stock 10, quantity −3. -/
theorem restock_no_positivity_check_witness :
    (0 ≤ prodC7.stock_quantity + (-3) →
      restock_product dbC7 1 1 (-3) none none "RESTOCK-1" =
        ({ putProduct dbC7
             { prodC7 with stock_quantity := prodC7.stock_quantity + (-3) } with
           stockLogs := dbC7.stockLogs ++
             [{ productId := prodC7.id, action := "restock",
                quantity_change := -3,
                previous_stock := prodC7.stock_quantity,
                new_stock := prodC7.stock_quantity + (-3),
                reference := "RESTOCK-1" }] },
         RestockResult.success)) ∧
    (prodC7.stock_quantity + (-3) < 0 →
      restock_product dbC7 1 1 (-3) none none "RESTOCK-1" =
        (dbC7, RestockResult.insufficientMsg)) :=
  restock_no_positivity_check dbC7 1 1 (-3) "RESTOCK-1" prodC7 (by decide)

/-- Witness for `receipt_crossBusiness_collision`: business 1 holds
REC-20260101-0001; business 2's first sale on that date fails. -/
theorem receipt_crossBusiness_collision_witness :
    createEmptySaleUnique dbC8w 2 "20260101" = Except.error () :=
  receipt_crossBusiness_collision dbC8w 2 "20260101" (by decide) (by decide)

/-- Witness for `createSale_skipped_lines_empty_sale`: a blank-product line
followed by a zero-quantity line on an existing product yields a committed
empty sale with receipt REC-20260101-0001. -/
theorem createSale_skipped_lines_empty_sale_witness :
    create_sale dbC9w 1 "20260101"
      [{ product_id := none, quantity := some 5 },
       { product_id := some 1, quantity := some 0 }] =
      ({ dbC9w with sales := [saleB1] }, CreateSaleResult.success 1) :=
  (createSale_skipped_lines_empty_sale dbC9w 1 "20260101" _).1 (by decide)
